import Mathlib

/-!
Verification of the analytics query-construction core of the LibreChat admin
dashboard: the date-range validator, the period-comparison calculator, and the
MongoDB aggregation pipeline-stage builders.

The repository ships the test suites (`date-validation.test.ts`,
`pipeline-builders.test.ts`) but the implementation modules
(`src/lib/api/date-validation.ts`, `src/lib/db/pipeline-builders.ts`) are not
among the provided sources, so the definitions below are modelled from the
specification (with the format strings and field names pinned by the test
suites).  Timestamps are absolute instants measured in milliseconds since the
Unix epoch, represented as `Int`.
-/

/-- Gregorian leap-year predicate. -/
def leapYear (y : Nat) : Bool :=
  (y % 4 == 0 && y % 100 != 0) || y % 400 == 0

/-- Number of days in month `m` (1-12) of year `y`. -/
def daysInMonth (y m : Nat) : Nat :=
  if m = 2 then (if leapYear y then 29 else 28)
  else if m = 4 ∨ m = 6 ∨ m = 9 ∨ m = 11 then 30
  else 31

/-- Days since the Unix epoch (1970-01-01) of the civil date `y-m-d`
(proleptic Gregorian, `y ≥ 1`), via the standard era decomposition. -/
def daysFromCivil (y m d : Nat) : Int :=
  let yAdj := if m ≤ 2 then y - 1 else y
  let era := yAdj / 400
  let yoe := yAdj - era * 400
  let mp := if m ≤ 2 then m + 9 else m - 3
  let doy := (153 * mp + 2) / 5 + d - 1
  let doe := yoe * 365 + yoe / 4 - yoe / 100 + doy
  (era : Int) * 146097 + (doe : Int) - 719468

/-- Milliseconds since the Unix epoch of the UTC instant
`y-m-d hh:mi:ss.ms`. -/
def utcMillis (y m d hh mi ss ms : Nat) : Int :=
  daysFromCivil y m d * 86400000
    + ((hh * 3600000 + mi * 60000 + ss * 1000 + ms : Nat) : Int)

/-- Read exactly `k` decimal digits from `cs`, accumulating into `acc`;
returns the value and the remaining characters. -/
def readFixedNatAux : Nat → Nat → List Char → Option (Nat × List Char)
  | 0, acc, cs => some (acc, cs)
  | _ + 1, _, [] => none
  | k + 1, acc, c :: cs =>
      if c.isDigit then readFixedNatAux k (acc * 10 + (c.toNat - 48)) cs
      else none

/-- Read exactly `k` decimal digits. -/
def readFixedNat (k : Nat) (cs : List Char) : Option (Nat × List Char) :=
  readFixedNatAux k 0 cs

/-- Consume the expected character `c` at the head of `cs`. -/
def expectChar (c : Char) : List Char → Option (List Char)
  | [] => none
  | c' :: cs => if c' = c then some cs else none

/-- Magnitude, in milliseconds, of a numeric UTC offset written `HH:MM`
(the sign has already been consumed); must consume the whole input. -/
def readOffsetMagnitude (cs : List Char) : Option Nat := do
  let (hh, cs) ← readFixedNat 2 cs
  let cs ← expectChar ':' cs
  let (mm, cs) ← readFixedNat 2 cs
  match cs with
  | [] => if hh ≤ 23 && mm ≤ 59 then some (hh * 3600000 + mm * 60000) else none
  | _ => none

/-- A trailing timezone designator: `Z` (UTC) or a numeric offset `±HH:MM`.
Returns the signed offset in milliseconds to subtract from the wall-clock
reading to obtain the absolute instant. -/
def readOffset : List Char → Option Int
  | ['Z'] => some 0
  | '+' :: cs => (readOffsetMagnitude cs).map (fun n => (n : Int))
  | '-' :: cs => (readOffsetMagnitude cs).map (fun n => -(n : Int))
  | _ => none

/-- Modelled from the spec: the date parsing performed inside
`validateDateRange` in `src/lib/api/date-validation.ts`, which is absent from
the provided sources (only its test file is present).  Per §4.1 it accepts
calendar-date-only strings (read as UTC midnight) and full ISO-8601
timestamps with time, optional fractional seconds, and a UTC (`Z`) or numeric
(`±HH:MM`) offset; a numeric offset is converted to an absolute instant.
Returns milliseconds since the Unix epoch, or `none` when unrecognized. -/
def parseDateChars (cs : List Char) : Option Int := do
  let (y, cs) ← readFixedNat 4 cs
  let cs ← expectChar '-' cs
  let (m, cs) ← readFixedNat 2 cs
  let cs ← expectChar '-' cs
  let (d, cs) ← readFixedNat 2 cs
  if 1 ≤ m ∧ m ≤ 12 ∧ 1 ≤ d ∧ d ≤ daysInMonth y m then
    match cs with
    | [] => some (utcMillis y m d 0 0 0 0)
    | 'T' :: cs => do
        let (hh, cs) ← readFixedNat 2 cs
        let cs ← expectChar ':' cs
        let (mi, cs) ← readFixedNat 2 cs
        let cs ← expectChar ':' cs
        let (ss, cs) ← readFixedNat 2 cs
        let (ms, cs) ←
          match cs with
          | '.' :: cs' => readFixedNat 3 cs'
          | _ => some (0, cs)
        if hh ≤ 23 ∧ mi ≤ 59 ∧ ss ≤ 59 then do
          let off ← readOffset cs
          some (utcMillis y m d hh mi ss ms - off)
        else none
    | _ => none
  else none

/-- Parse a date string into an absolute instant (ms since epoch). -/
def parseDate (s : String) : Option Int :=
  parseDateChars s.data

/-- Structured validation failure surfaced to HTTP callers. -/
structure ApiError where
  status : Nat
  message : String
deriving Repr, DecidableEq

/-- A validated, ordered time interval (absolute instants, ms since epoch). -/
structure DateRange where
  startDate : Int
  endDate : Int
deriving Repr, DecidableEq

/-- Modelled from the spec: `validateDateRange` from
`src/lib/api/date-validation.ts`, absent from the provided sources (only its
test file is present).  Per §4.1: fails with status 400 when either input is
null, when an input does not parse as a recognized date, or when the parsed
start is strictly after the parsed end; otherwise succeeds with the
millisecond-exact parsed interval.  Equal start and end is valid. -/
def validateDateRange (startRaw endRaw : Option String) : Except ApiError DateRange :=
  match startRaw, endRaw with
  | none, _ => .error ⟨400, "Missing start or end date parameter"⟩
  | _, none => .error ⟨400, "Missing start or end date parameter"⟩
  | some s, some e =>
    match parseDate s, parseDate e with
    | none, _ => .error ⟨400, "Invalid date format"⟩
    | _, none => .error ⟨400, "Invalid date format"⟩
    | some sd, some ed =>
      if ed < sd then .error ⟨400, "Start date must be before end date"⟩
      else .ok ⟨sd, ed⟩

/-- `true` exactly when a validation outcome is the failure variant. -/
def isFailure : Except ApiError DateRange → Bool
  | .error _ => true
  | .ok _ => false

/-- The current window together with the derived previous window. -/
structure PeriodComparison where
  startDate : Int
  endDate : Int
  prevStart : Int
  prevEnd : Int
deriving Repr, DecidableEq

/-- Modelled from the spec: `calculatePreviousPeriod` from
`src/lib/api/date-validation.ts`, absent from the provided sources (only its
test file is present).  Per §4.2 it is pure instant subtraction:
`prevEnd = start` and `prevStart = start - (end - start)`, with the current
window returned unchanged alongside. -/
def calculatePreviousPeriod (startDate endDate : Int) : PeriodComparison :=
  let duration := endDate - startDate
  { startDate := startDate
    endDate := endDate
    prevStart := startDate - duration
    prevEnd := startDate }

/-- Untyped document value, mirroring the JavaScript objects the pipeline
builders construct (strings, numbers, dates, nested documents, arrays). -/
inductive Value where
  | str (s : String)
  | num (n : Int)
  | date (t : Int)
  | null
  | doc (fields : List (String × Value))
  | arr (elems : List Value)

/-- A JavaScript-object-like document: an association list of fields in which
the first binding of a key is the visible one (a later-asserted key is
modelled by prepending it). -/
abbrev Doc := List (String × Value)

/-- Visible value of key `key` in a document. -/
def Doc.get : Doc → String → Option Value
  | [], _ => none
  | (k, v) :: rest, key => if key = k then some v else Doc.get rest key

/-- The keys of a document, in order. -/
def Doc.keys (d : Doc) : List String :=
  d.map (·.1)

/-- Structured error for the pipeline builders (§7). -/
inductive PipelineError where
  | unsupportedGranularity
deriving Repr, DecidableEq

/-- Modelled from the spec: `matchDateRange` from
`src/lib/db/pipeline-builders.ts`, absent from the provided sources (only its
test file is present).  Per §4.3/§9 it produces a `$match` stage bounding the
creation timestamp `createdAt` inclusively by `[startDate, endDate]`,
shallow-merged with `extraFilters`, with the protected date-bound key
re-asserted unconditionally so the merge can never erase or override it. -/
def matchDateRange (startDate endDate : Int) (extraFilters : Doc := []) : Value :=
  .doc [("$match", .doc (("createdAt",
    .doc [("$gte", .date startDate), ("$lte", .date endDate)]) :: extraFilters))]

/-- Modelled from the spec: `addTimeField` from
`src/lib/db/pipeline-builders.ts`, absent from the provided sources (only its
test file is present).  Per §4.3 it produces an `$addFields` stage deriving a
bucket-key string named exactly after the granularity, with the format
strings pinned by the test suite (`%d, %H:00`, `%Y-%m-%d`, `%Y-%m`), the
source field defaulting to `$createdAt`; an unrecognized granularity fails
with `UnsupportedGranularity`. -/
def addTimeField (granularity : String) (dateField : String := "$createdAt") :
    Except PipelineError Value :=
  if granularity = "hour" then
    .ok (.doc [("$addFields", .doc [("hour",
      .doc [("$dateToString",
        .doc [("format", .str "%d, %H:00"), ("date", .str dateField)])])])])
  else if granularity = "day" then
    .ok (.doc [("$addFields", .doc [("day",
      .doc [("$dateToString",
        .doc [("format", .str "%Y-%m-%d"), ("date", .str dateField)])])])])
  else if granularity = "month" then
    .ok (.doc [("$addFields", .doc [("month",
      .doc [("$dateToString",
        .doc [("format", .str "%Y-%m"), ("date", .str dateField)])])])])
  else .error .unsupportedGranularity

/-- Modelled from the spec: `createPeriodComparisonFacet` from
`src/lib/db/pipeline-builders.ts`, absent from the provided sources (only its
test file is present).  Per §4.3 it produces one `$facet` stage with the two
named sub-pipelines `current` and `prev`, each beginning with its own
date-range filter followed by a verbatim copy of `aggregationStages`. -/
def createPeriodComparisonFacet (startDate endDate prevStart prevEnd : Int)
    (aggregationStages : List Value) : Value :=
  .doc [("$facet", .doc
    [("current", .arr (matchDateRange startDate endDate :: aggregationStages)),
     ("prev", .arr (matchDateRange prevStart prevEnd :: aggregationStages))])]

/-- Modelled from the spec: `groupByTimeAndModel` from
`src/lib/db/pipeline-builders.ts`, absent from the provided sources (only its
test file is present).  Per §4.3 it produces a `$group` stage keyed on the
composite `{granularity-bucket, model, endpoint, ...extraGroupFields}`
(caller-supplied keys take precedence on collision), summing `$tokenCount`
as `totalTokens` and counting documents as `requests`; an unrecognized
granularity fails with `UnsupportedGranularity`. -/
def groupByTimeAndModel (granularity : String) (extraGroupFields : Doc := []) :
    Except PipelineError Value :=
  if granularity = "hour" ∨ granularity = "day" ∨ granularity = "month" then
    .ok (.doc [("$group", .doc
      [("_id", .doc (extraGroupFields ++
        [(granularity, .str ("$" ++ granularity)),
         ("model", .str "$model"),
         ("endpoint", .str "$endpoint")])),
       ("totalTokens", .doc [("$sum", .str "$tokenCount")]),
       ("requests", .doc [("$sum", .num 1)])])])
  else .error .unsupportedGranularity

/-- The stage wrapped by a successful builder outcome (`null` on failure). -/
def okStage : Except PipelineError Value → Value
  | .ok v => v
  | .error _ => .null

/-- The filter document of a `$match` stage. -/
def matchFilterDoc : Value → Doc
  | .doc [("$match", .doc d)] => d
  | _ => []

/-- The derived-fields document of an `$addFields` stage. -/
def addFieldsDoc : Value → Doc
  | .doc [("$addFields", .doc d)] => d
  | _ => []

/-- The body of a `$group` stage. -/
def groupDoc : Value → Doc
  | .doc [("$group", .doc d)] => d
  | _ => []

/-- The composite grouping key of a `$group` stage. -/
def groupIdDoc (v : Value) : Doc :=
  match Doc.get (groupDoc v) "_id" with
  | some (.doc d) => d
  | _ => []

/-- The names of the sub-pipelines of a `$facet` stage, in order. -/
def facetBranchNames : Value → List String
  | .doc [("$facet", .doc bs)] => Doc.keys bs
  | _ => []

/-- The sub-pipeline named `name` of a `$facet` stage. -/
def facetBranch (v : Value) (name : String) : List Value :=
  match v with
  | .doc [("$facet", .doc bs)] =>
    match Doc.get bs name with
    | some (.arr xs) => xs
    | _ => []
  | _ => []

/-- The first stage of the sub-pipeline named `name` of a `$facet` stage. -/
def branchHead (v : Value) (name : String) : Value :=
  (facetBranch v name).headD .null

/-- Whether the creation-timestamp bound of a `$match` stage accepts a
document whose `createdAt` is the instant `t`: the semantics of the date
filter, requiring `$gte ≤ t ≤ $lte`. -/
def matchAccepts (stage : Value) (t : Int) : Bool :=
  match Doc.get (matchFilterDoc stage) "createdAt" with
  | some (.doc bound) =>
    (match Doc.get bound "$gte" with
     | some (.date s) => decide (s ≤ t)
     | _ => false) &&
    (match Doc.get bound "$lte" with
     | some (.date e) => decide (t ≤ e)
     | _ => false)
  | _ => false

example : parseDate "2024-01-01" = some 1704067200000 := by decide
example : parseDate "2024-02-29" ≠ none := by decide
example : parseDate "2023-02-29" = none := by decide
example : parseDate "invalid-date" = none := by decide
example : parseDate "2024-01-15T00:00:00Z" = some 1705276800000 := by decide
example : parseDate "2024-01-15T12:30:45.123Z" = some (1705276800000 + 12*3600000 + 30*60000 + 45*1000 + 123) := by decide
example : parseDate "2024-01-15T00:00:00+01:00" = some (1705276800000 - 3600000) := by decide

/-- A key bound in a document is visible: its lookup succeeds. -/
theorem Doc.get_isSome_of_mem {d : Doc} {k : String} {v : Value} (h : (k, v) ∈ d) :
    (Doc.get d k).isSome = true := by
  induction d with
  | nil => cases h
  | cons p rest ih =>
    obtain ⟨k', v'⟩ := p
    rcases List.mem_cons.mp h with h' | h'
    · injection h' with h1 h2
      subst h1
      simp [Doc.get]
    · by_cases hk : k = k'
      · simp [Doc.get, hk]
      · simpa [Doc.get, hk] using ih h'

/-- The date filter produced by `matchDateRange` accepts exactly the instants
of the inclusive interval. -/
theorem matchAccepts_matchDateRange (s e t : Int) :
    matchAccepts (matchDateRange s e) t = (decide (s ≤ t) && decide (t ≤ e)) := rfl

/-- C1: for every pair of instants with `start ≤ end`, `calculatePreviousPeriod`
returns `prevEnd` exactly equal to `start` and a previous window of exactly the
same duration (pure instant subtraction); in particular on the window
2024-01-15T00:00:00Z .. 2024-01-31T00:00:00Z it yields
`prevStart = 2023-12-30T00:00:00Z` and `prevEnd = 2024-01-15T00:00:00Z`,
correct across the year boundary. -/
theorem calculatePreviousPeriod_correct :
    (∀ s e : Int, s ≤ e →
      (calculatePreviousPeriod s e).prevEnd = s ∧
      (calculatePreviousPeriod s e).prevEnd - (calculatePreviousPeriod s e).prevStart = e - s) ∧
    (calculatePreviousPeriod (utcMillis 2024 1 15 0 0 0 0)
        (utcMillis 2024 1 31 0 0 0 0)).prevStart = utcMillis 2023 12 30 0 0 0 0 ∧
    (calculatePreviousPeriod (utcMillis 2024 1 15 0 0 0 0)
        (utcMillis 2024 1 31 0 0 0 0)).prevEnd = utcMillis 2024 1 15 0 0 0 0 := by
  refine ⟨fun s e _ => ⟨rfl, ?_⟩, by decide, by decide⟩
  simp [calculatePreviousPeriod]

/-- Witness for C1 at the concrete window `[1, 5]`. -/
theorem calculatePreviousPeriod_correct_witness :
    (calculatePreviousPeriod 1 5).prevEnd = 1 ∧
    (calculatePreviousPeriod 1 5).prevEnd - (calculatePreviousPeriod 1 5).prevStart = 5 - 1 :=
  calculatePreviousPeriod_correct.1 1 5 (by decide)

/-- C2: for all strings that parse as recognized dates with
`parse a ≤ parse b` (equality allowed), `validateDateRange` succeeds with the
millisecond-exact parsed instants; and a numeric offset is converted to an
absolute instant, so the same wall-clock time under different offsets yields
distinct instants. -/
theorem validateDateRange_ok (a b : String) (ta tb : Int)
    (ha : parseDate a = some ta) (hb : parseDate b = some tb) (hle : ta ≤ tb) :
    validateDateRange (some a) (some b) = .ok ⟨ta, tb⟩ ∧
    parseDate "2024-01-15T00:00:00Z" ≠ parseDate "2024-01-15T00:00:00+01:00" := by
  refine ⟨?_, by decide⟩
  simp only [validateDateRange, ha, hb]
  rw [if_neg (by omega)]

/-- Witness for C2 at the concrete range 2024-01-01 .. 2024-01-31. -/
theorem validateDateRange_ok_witness :
    validateDateRange (some "2024-01-01") (some "2024-01-31")
      = .ok ⟨1704067200000, 1706659200000⟩ ∧
    parseDate "2024-01-15T00:00:00Z" ≠ parseDate "2024-01-15T00:00:00+01:00" :=
  validateDateRange_ok "2024-01-01" "2024-01-31" 1704067200000 1706659200000
    (by decide) (by decide) (by decide)

/-- C3: `validateDateRange` always returns a structured outcome (it is a total
function), every failure carries status exactly 400, and it fails precisely
when an input is null, an input does not parse as a recognized date, or the
parsed start is strictly after the parsed end. -/
theorem validateDateRange_failure_iff (a b : Option String) :
    (∀ err, validateDateRange a b = .error err → err.status = 400) ∧
    (isFailure (validateDateRange a b) = true ↔
      a = none ∨ b = none ∨
      (∃ s, a = some s ∧ parseDate s = none) ∨
      (∃ s, b = some s ∧ parseDate s = none) ∨
      (∃ sa sb ta tb, a = some sa ∧ b = some sb ∧
        parseDate sa = some ta ∧ parseDate sb = some tb ∧ tb < ta)) := by
  rcases a with _ | sa <;> rcases b with _ | sb
  · exact ⟨fun err h => by cases h; rfl, by simp [validateDateRange, isFailure]⟩
  · exact ⟨fun err h => by cases h; rfl, by simp [validateDateRange, isFailure]⟩
  · exact ⟨fun err h => by cases h; rfl, by simp [validateDateRange, isFailure]⟩
  rcases hpa : parseDate sa with _ | ta
  · have hred : validateDateRange (some sa) (some sb) = .error ⟨400, "Invalid date format"⟩ := by
      simp [validateDateRange, hpa]
    constructor
    · intro err h
      rw [hred] at h
      cases h
      rfl
    · rw [hred]
      simp only [isFailure]
      constructor
      · intro _
        exact Or.inr (Or.inr (Or.inl ⟨sa, rfl, hpa⟩))
      · intro _
        trivial
  rcases hpb : parseDate sb with _ | tb
  · have hred : validateDateRange (some sa) (some sb) = .error ⟨400, "Invalid date format"⟩ := by
      simp [validateDateRange, hpa, hpb]
    constructor
    · intro err h
      rw [hred] at h
      cases h
      rfl
    · rw [hred]
      simp only [isFailure]
      constructor
      · intro _
        exact Or.inr (Or.inr (Or.inr (Or.inl ⟨sb, rfl, hpb⟩)))
      · intro _
        trivial
  by_cases hlt : tb < ta
  · have hred : validateDateRange (some sa) (some sb)
        = .error ⟨400, "Start date must be before end date"⟩ := by
      simp [validateDateRange, hpa, hpb, hlt]
    constructor
    · intro err h
      rw [hred] at h
      cases h
      rfl
    · rw [hred]
      simp only [isFailure]
      constructor
      · intro _
        exact Or.inr (Or.inr (Or.inr (Or.inr ⟨sa, sb, ta, tb, rfl, rfl, hpa, hpb, hlt⟩)))
      · intro _
        trivial
  · have hred : validateDateRange (some sa) (some sb) = .ok ⟨ta, tb⟩ := by
      simp only [validateDateRange, hpa, hpb]
      rw [if_neg hlt]
    constructor
    · intro err h
      rw [hred] at h
      cases h
    · rw [hred]
      simp only [isFailure]
      constructor
      · intro h
        exact absurd h (by simp)
      · rintro (h | h | ⟨s, hs, hp⟩ | ⟨s, hs, hp⟩ |
          ⟨s1, s2, t1, t2, h1, h2, h3, h4, h5⟩) <;> exfalso
        · cases h
        · cases h
        · injection hs with hs'
          subst hs'
          rw [hpa] at hp
          cases hp
        · injection hs with hs'
          subst hs'
          rw [hpb] at hp
          cases hp
        · injection h1 with h1'
          subst h1'
          injection h2 with h2'
          subst h2'
          rw [hpa] at h3
          injection h3 with h3'
          rw [hpb] at h4
          injection h4 with h4'
          omega

/-- Witness for C3: a missing start parameter fails. -/
theorem validateDateRange_failure_iff_witness :
    isFailure (validateDateRange none (some "2024-01-31")) = true :=
  (validateDateRange_failure_iff none (some "2024-01-31")).2.mpr (Or.inl rfl)

/-- C4: for every window and every `extraFilters` document (including one
whose keys collide with the date-range key), the `$match` stage produced by
`matchDateRange` bounds `createdAt` by exactly the inclusive interval
`[$gte start, $lte end]`, every caller-supplied key remains present, and
keys other than the protected date bound keep the caller's value — the merge
can never erase or override the date bounds. -/
theorem matchDateRange_merge (s e : Int) (extra : Doc) :
    Doc.get (matchFilterDoc (matchDateRange s e extra)) "createdAt"
      = some (.doc [("$gte", .date s), ("$lte", .date e)]) ∧
    (∀ k v, (k, v) ∈ extra →
      (Doc.get (matchFilterDoc (matchDateRange s e extra)) k).isSome = true) ∧
    (∀ k, k ≠ "createdAt" →
      Doc.get (matchFilterDoc (matchDateRange s e extra)) k = Doc.get extra k) := by
  have hfd : matchFilterDoc (matchDateRange s e extra)
      = ("createdAt", Value.doc [("$gte", .date s), ("$lte", .date e)]) :: extra := rfl
  refine ⟨by rw [hfd]; simp [Doc.get], ?_, ?_⟩
  · intro k v hkv
    rw [hfd]
    by_cases hk : k = "createdAt"
    · simp [Doc.get, hk]
    · simpa [Doc.get, hk] using Doc.get_isSome_of_mem hkv
  · intro k hk
    rw [hfd]
    simp [Doc.get, hk]

/-- Witness for C4 with a colliding and a non-colliding extra filter. -/
theorem matchDateRange_merge_witness :
    Doc.get (matchFilterDoc (matchDateRange 0 5
        [("model", .str "gpt-4"), ("createdAt", .str "bogus")])) "createdAt"
      = some (.doc [("$gte", .date 0), ("$lte", .date 5)]) ∧
    (Doc.get (matchFilterDoc (matchDateRange 0 5
        [("model", .str "gpt-4"), ("createdAt", .str "bogus")])) "model").isSome = true := by
  have h := matchDateRange_merge 0 5 [("model", .str "gpt-4"), ("createdAt", .str "bogus")]
  exact ⟨h.1, h.2.1 "model" (.str "gpt-4") (by simp)⟩

/-- C5: `createPeriodComparisonFacet` produces one `$facet` stage with exactly
the two named sub-pipelines `current` and `prev`, each beginning with its own
date-range filter (current and previous window respectively) followed by a
verbatim, order-preserving copy of the inner stages, so each branch has
length `1 + length innerStages`. -/
theorem createPeriodComparisonFacet_branches (cs ce ps pe : Int) (inner : List Value) :
    facetBranchNames (createPeriodComparisonFacet cs ce ps pe inner) = ["current", "prev"] ∧
    facetBranch (createPeriodComparisonFacet cs ce ps pe inner) "current"
      = matchDateRange cs ce :: inner ∧
    facetBranch (createPeriodComparisonFacet cs ce ps pe inner) "prev"
      = matchDateRange ps pe :: inner ∧
    (facetBranch (createPeriodComparisonFacet cs ce ps pe inner) "current").length
      = 1 + inner.length ∧
    (facetBranch (createPeriodComparisonFacet cs ce ps pe inner) "prev").length
      = 1 + inner.length := by
  refine ⟨rfl, rfl, rfl, ?_, ?_⟩ <;>
    · show (matchDateRange _ _ :: inner).length = 1 + inner.length
      simp [Nat.add_comm]

/-- C6: `addTimeField` produces an `$addFields` stage whose single derived
field is named exactly after the granularity, formatting the source field as
`%d, %H:00` for hour, `%Y-%m-%d` for day, `%Y-%m` for month (the test suite's
rendering of `DD, HH:00` / `YYYY-MM-DD` / `YYYY-MM`); when the source field
is omitted it defaults to the creation-timestamp field `$createdAt`. -/
theorem addTimeField_formats (src : String) :
    Doc.keys (addFieldsDoc (okStage (addTimeField "hour" src))) = ["hour"] ∧
    Doc.get (addFieldsDoc (okStage (addTimeField "hour" src))) "hour"
      = some (.doc [("$dateToString",
          .doc [("format", .str "%d, %H:00"), ("date", .str src)])]) ∧
    Doc.keys (addFieldsDoc (okStage (addTimeField "day" src))) = ["day"] ∧
    Doc.get (addFieldsDoc (okStage (addTimeField "day" src))) "day"
      = some (.doc [("$dateToString",
          .doc [("format", .str "%Y-%m-%d"), ("date", .str src)])]) ∧
    Doc.keys (addFieldsDoc (okStage (addTimeField "month" src))) = ["month"] ∧
    Doc.get (addFieldsDoc (okStage (addTimeField "month" src))) "month"
      = some (.doc [("$dateToString",
          .doc [("format", .str "%Y-%m"), ("date", .str src)])]) ∧
    Doc.get (addFieldsDoc (okStage (addTimeField "day"))) "day"
      = some (.doc [("$dateToString",
          .doc [("format", .str "%Y-%m-%d"), ("date", .str "$createdAt")])]) := by
  exact ⟨rfl, rfl, rfl, rfl, rfl, rfl, rfl⟩

/-- C7: in the facet built with `prevEnd = curStart`, the two branches' date
filters are mutually exclusive off the boundary — an instant strictly inside
one window satisfies only that branch's filter — while the shared boundary
instant satisfies both filters, since both windows are inclusive on both
ends. -/
theorem createPeriodComparisonFacet_boundary (cs ce ps t : Int) (inner : List Value)
    (hps : ps ≤ cs) (hce : cs ≤ ce) :
    (ps < t → t < cs →
      matchAccepts (branchHead (createPeriodComparisonFacet cs ce ps cs inner) "prev") t
        = true ∧
      matchAccepts (branchHead (createPeriodComparisonFacet cs ce ps cs inner) "current") t
        = false) ∧
    (cs < t → t < ce →
      matchAccepts (branchHead (createPeriodComparisonFacet cs ce ps cs inner) "current") t
        = true ∧
      matchAccepts (branchHead (createPeriodComparisonFacet cs ce ps cs inner) "prev") t
        = false) ∧
    matchAccepts (branchHead (createPeriodComparisonFacet cs ce ps cs inner) "current") cs
      = true ∧
    matchAccepts (branchHead (createPeriodComparisonFacet cs ce ps cs inner) "prev") cs
      = true := by
  have hc : branchHead (createPeriodComparisonFacet cs ce ps cs inner) "current"
      = matchDateRange cs ce := rfl
  have hp : branchHead (createPeriodComparisonFacet cs ce ps cs inner) "prev"
      = matchDateRange ps cs := rfl
  rw [hc, hp]
  simp only [matchAccepts_matchDateRange]
  refine ⟨fun h1 h2 => ⟨?_, ?_⟩, fun h1 h2 => ⟨?_, ?_⟩, ?_, ?_⟩ <;>
    simp only [Bool.and_eq_true, Bool.and_eq_false_iff, decide_eq_true_eq,
      decide_eq_false_iff_not] <;> omega

/-- Witness for C7 with windows `[0, 10]` and `[10, 20]` at instants 5 and
the boundary 10. -/
theorem createPeriodComparisonFacet_boundary_witness :
    (matchAccepts (branchHead (createPeriodComparisonFacet 10 20 0 10 []) "prev") 5
        = true ∧
      matchAccepts (branchHead (createPeriodComparisonFacet 10 20 0 10 []) "current") 5
        = false) ∧
    matchAccepts (branchHead (createPeriodComparisonFacet 10 20 0 10 []) "current") 10
      = true ∧
    matchAccepts (branchHead (createPeriodComparisonFacet 10 20 0 10 []) "prev") 10
      = true := by
  have h := createPeriodComparisonFacet_boundary 10 20 0 5 [] (by decide) (by decide)
  exact ⟨h.1 (by decide) (by decide), h.2.2.1, h.2.2.2⟩

/-- C8: for every recognized granularity, the granularity-bucket field name in
the composite grouping key of `groupByTimeAndModel` is exactly the field name
produced by `addTimeField` for the same granularity (referencing the derived
field), alongside the `model` and `endpoint` fields, and the stage sums the
token-count field as `totalTokens` and counts documents as `requests`. -/
theorem groupByTimeAndModel_key_matches (g : String)
    (hg : g = "hour" ∨ g = "day" ∨ g = "month") :
    Doc.keys (addFieldsDoc (okStage (addTimeField g))) = [g] ∧
    Doc.get (groupIdDoc (okStage (groupByTimeAndModel g))) g = some (.str ("$" ++ g)) ∧
    Doc.get (groupIdDoc (okStage (groupByTimeAndModel g))) "model" = some (.str "$model") ∧
    Doc.get (groupIdDoc (okStage (groupByTimeAndModel g))) "endpoint"
      = some (.str "$endpoint") ∧
    Doc.get (groupDoc (okStage (groupByTimeAndModel g))) "totalTokens"
      = some (.doc [("$sum", .str "$tokenCount")]) ∧
    Doc.get (groupDoc (okStage (groupByTimeAndModel g))) "requests"
      = some (.doc [("$sum", .num 1)]) := by
  rcases hg with rfl | rfl | rfl <;> exact ⟨rfl, rfl, rfl, rfl, rfl, rfl⟩

/-- Witness for C8 at granularity `day`. -/
theorem groupByTimeAndModel_key_matches_witness :
    Doc.get (groupIdDoc (okStage (groupByTimeAndModel "day"))) "day"
      = some (.str "$day") ∧
    Doc.keys (addFieldsDoc (okStage (addTimeField "day"))) = ["day"] := by
  have h := groupByTimeAndModel_key_matches "day" (Or.inr (Or.inl rfl))
  exact ⟨h.2.1, h.1⟩

/-- C9: for every input that is not one of the recognized granularities
`hour`, `day`, `month`, both granularity-taking builders fail with the
structured `UnsupportedGranularity` condition rather than silently
defaulting. -/
theorem unsupportedGranularity_error (g src : String) (extra : Doc)
    (h1 : g ≠ "hour") (h2 : g ≠ "day") (h3 : g ≠ "month") :
    addTimeField g src = .error .unsupportedGranularity ∧
    groupByTimeAndModel g extra = .error .unsupportedGranularity := by
  constructor
  · simp [addTimeField, h1, h2, h3]
  · simp [groupByTimeAndModel, h1, h2, h3]

/-- Witness for C9 at the unrecognized granularity `week`. -/
theorem unsupportedGranularity_error_witness :
    addTimeField "week" "$createdAt" = .error .unsupportedGranularity ∧
    groupByTimeAndModel "week" [] = .error .unsupportedGranularity :=
  unsupportedGranularity_error "week" "$createdAt" []
    (by decide) (by decide) (by decide)

/-- C10: `calculatePreviousPeriod` returns the current interval unchanged
alongside the derived previous one: the `startDate` and `endDate` fields of
its result equal the inputs exactly. -/
theorem calculatePreviousPeriod_keeps_window (s e : Int) :
    (calculatePreviousPeriod s e).startDate = s ∧
    (calculatePreviousPeriod s e).endDate = e :=
  ⟨rfl, rfl⟩
